import Mathlib

/-!
Verification of the hasura-auth identity-verification and account-linkage core.

Shallow embedding of:
  * `src/routes/oauth/utils.ts` (`transformOauthProfile`, `createGrantConfig`,
    `findOrCreateUser`, `createUser`)
  * `src/routes/oauth/index.ts` (provider validation middleware, OAuth callback
    handler with its local `sendErrorFromQuery`)
  * `src/routes/oauth/native.ts` + `src/routes/oauth/typequards.ts`
    (native Google token exchange)
  * `src/utils/webauthn.ts` (`verifyWebAuthnRegistration`)

JavaScript semantics conventions used throughout:
  * possibly-`undefined` values are `Option`s;
  * JS truthiness on a string is "present and non-empty" (`truthy`/`truthyS`);
  * `a || b` on strings is `jsOr`;
  * a thrown `Error(msg)` is `Except.error msg`, and the surrounding database
    state is threaded explicitly, so an error result means the remaining
    writes did not happen.
-/

/-- JS truthiness of a possibly-undefined string: `undefined`, `null` and `""`
are falsy, every other string is truthy. -/
def truthy : Option String → Bool
  | none => false
  | some s => !(s == "")

/-- JS truthiness, returning the string when it is truthy (used to model
`if (x) { ... use x ... }` on an optional string). -/
def truthyS : Option String → Option String
  | none => none
  | some s => if s == "" then none else some s

/-- JS `a || b` where `a` is a possibly-undefined string and `b` is a string. -/
def jsOr (a : Option String) (b : String) : String :=
  match a with
  | some s => if s == "" then b else s
  | none => b

/-- JS `a || b` where both sides are possibly-undefined strings. -/
def jsOrO (a : Option String) (b : Option String) : Option String :=
  match a with
  | some s => if s == "" then b else some s
  | none => b

/-! ## Data model -/

/-- `NormalisedProfile` from `src/routes/oauth/utils.ts`: the fields possibly
returned by the OAuth provider. All fields are `Partial`. -/
structure NormalisedProfile where
  id : Option String := none
  displayName : Option String := none
  avatarUrl : Option String := none
  email : Option String := none
  locale : Option String := none
  emailVerified : Option Bool := none
deriving Repr, DecidableEq

/-- JSON-object metadata, modelled as string key/value pairs. -/
abbrev Metadata := List (String × String)

/-- The client-supplied `allowedRoles` registration option: typed as a string
array, but the code defends against it arriving as a single string. -/
inductive AllowedRoles where
  | arr (roles : List String)
  | str (s : String)
deriving Repr, DecidableEq

/-- `UserRegistrationOptions` (the subset used by the OAuth code paths);
every field is optional (`Partial`). -/
structure RegistrationOptions where
  locale : Option String := none
  displayName : Option String := none
  allowedRoles : Option AllowedRoles := none
  defaultRole : Option String := none
  metadata : Option Metadata := none
deriving Repr, DecidableEq

/-- The `InsertUserMutationVariables['user']` object built by
`transformOauthProfile`. `roles` keeps just the role strings of
`roles.data`. -/
structure UserInsertInput where
  passwordHash : Option String
  metadata : Metadata
  email : Option String
  emailVerified : Bool
  defaultRole : String
  roles : List String
  locale : String
  displayName : Option String
  avatarUrl : String
deriving Repr, DecidableEq

/-- A persisted `auth.users` row (the fields the OAuth paths touch). -/
structure UserRecord where
  id : String
  email : Option String := none
  displayName : Option String := none
  avatarUrl : String := ""
  locale : String := "en"
  defaultRole : String := "user"
  roles : List String := []
  metadata : Metadata := []
deriving Repr, DecidableEq

/-- A persisted `auth.user_providers` row (a `UserIdentityLink`):
`(providerId, providerUserId)` identifies at most one row. -/
structure AuthUserProvider where
  id : String
  userId : String
  providerId : String
  providerUserId : String
  accessToken : Option String := none
  refreshToken : Option String := none
deriving Repr, DecidableEq

/-- The provider tokens handed to account resolution. -/
structure Tokens where
  refreshToken : Option String := none
  accessToken : Option String := none
deriving Repr, DecidableEq

/-- The user/link store reached through `gqlSdk`. `storeError`, when set,
makes every store call fail with that message, modelling an underlying
store failure; `nextId` seeds fresh row ids. -/
structure DB where
  users : List UserRecord
  userProviders : List AuthUserProvider
  storeError : Option String := none
  nextId : Nat := 0
deriving Repr, DecidableEq

/-- Environment and external collaborators (`ENV`, validators, gravatar,
token minting, provider profile normalisers), injected as plain functions. -/
structure Config where
  defaultLocale : String
  allowedLocales : List String
  defaultRole : String
  defaultAllowedRoles : List String
  authClientUrl : String
  validEmail : String → Bool
  gravatarUrl : Option String → Option String
  mint : String → String

/-- A store call observes `storeError` first: when an underlying store
failure is injected it surfaces as a thrown error. -/
def DB.call (db : DB) : Except String Unit :=
  match db.storeError with
  | some e => Except.error e
  | none => Except.ok ()

/-- A fresh row id from the store's id seed. -/
def DB.freshId (db : DB) (prefixStr : String) : String :=
  prefixStr ++ toString db.nextId

/-- The (at most one) link row stored for `(provider, providerUserId)`. -/
def linkFor (db : DB) (provider providerUserId : String) :
    Option AuthUserProvider :=
  db.userProviders.find?
    (fun l => l.providerId == provider && l.providerUserId == providerUserId)

/-- The user row with a given id. -/
def userById (db : DB) (userId : String) : Option UserRecord :=
  db.users.find? (fun u => u.id == userId)

/-- The user row with a given email (`email` is unique when present). -/
def userByEmail (db : DB) (email : String) : Option UserRecord :=
  db.users.find? (fun u => u.email == some email)

/-- `gqlSdk.authUserProviders({provider, providerUserId})`: the (at most one)
link row for the pair, joined with its user object relationship. -/
def gqlAuthUserProviders (provider providerUserId : String) (db : DB) :
    Except String (Option (AuthUserProvider × Option UserRecord)) := do
  db.call
  match linkFor db provider providerUserId with
  | none => Except.ok none
  | some l => Except.ok (some (l, userById db l.userId))

/-- `gqlSdk.updateAuthUserprovider({id, authUserProvider: {accessToken,
refreshToken}})`: overwrite the two token columns of the row with that id. -/
def gqlUpdateAuthUserprovider (linkId : String) (tokens : Tokens) (db : DB) :
    Except String DB := do
  db.call
  Except.ok { db with
    userProviders := db.userProviders.map fun l =>
      if l.id == linkId then
        { l with accessToken := tokens.accessToken,
                 refreshToken := tokens.refreshToken }
      else l }

/-- Modelled from the spec: `getUserByEmail` (imported from `@/utils`, not in
`src/`) — "a User already exists with that email" lookup; `email` is unique
when present, so the first match is the match. -/
def getUserByEmail (email : String) (db : DB) :
    Except String (Option UserRecord) := do
  db.call
  Except.ok (userByEmail db email)

/-- `gqlSdk.insertUserProviderToUser({userProvider})`: append the new link
row and return its id (the `insertAuthUserProvider` result). -/
def gqlInsertUserProviderToUser (userId providerId providerUserId : String)
    (tokens : Tokens) (db : DB) :
    Except String (Option String × DB) := do
  db.call
  let link : AuthUserProvider :=
    { id := db.freshId "link", userId, providerId, providerUserId,
      accessToken := tokens.accessToken, refreshToken := tokens.refreshToken }
  Except.ok (some link.id,
    { db with userProviders := db.userProviders ++ [link],
              nextId := db.nextId + 1 })

/-! ## `transformOauthProfile` -/

/-- Modelled from the spec: the Joi email validator used in
`transformOauthProfile` (imported from `@/validation`, not in `src/`).
A missing email validates to a missing value; a present email must pass the
configured email check, otherwise the validation throws. -/
def emailValidateAsync (cfg : Config) : Option String →
    Except String (Option String)
  | none => Except.ok none
  | some e => if cfg.validEmail e then Except.ok (some e)
              else Except.error "email must be a valid email"

/-- Modelled from the spec: the Joi locale validator (imported from
`@/validation`, not in `src/`) — "the locale should be in the list of allowed
locales, and if not, fall back to the default locale". Returns the value when
validation reports no error. -/
def localeValidate (cfg : Config) : Option String → Option String
  | none => none
  | some l => if l ∈ cfg.allowedLocales then some l else none

/-- The `allowedRoles` block of `transformOauthProfile`: default roles,
overridden by a truthy client option — used verbatim when it is an array,
split on commas when it is a string. An empty string is falsy in JS and
therefore does not override the default. -/
def resolveAllowedRoles (cfg : Config) :
    Option AllowedRoles → List String
  | none => cfg.defaultAllowedRoles
  | some (.arr a) => a
  | some (.str s) =>
      if s == "" then cfg.defaultAllowedRoles else s.splitOn ","

/-- `transformOauthProfile` from `src/routes/oauth/utils.ts`: validate the
email, pick an avatar, an allowed locale, a display name, the roles and the
metadata, and build the user-insert object. -/
def transformOauthProfile (cfg : Config) (normalised : NormalisedProfile)
    (options : RegistrationOptions) : Except String UserInsertInput := do
  let email ← emailValidateAsync cfg normalised.email
  let avatarUrl := jsOr normalised.avatarUrl (jsOr (cfg.gravatarUrl email) "")
  let locale :=
    match localeValidate cfg (jsOrO options.locale normalised.locale) with
    | some v => v
    | none => cfg.defaultLocale
  let displayName := jsOrO options.displayName (jsOrO normalised.displayName email)
  let emailVerified := normalised.emailVerified.getD false
  let allowedRoles := resolveAllowedRoles cfg options.allowedRoles
  Except.ok
    { passwordHash := none
      metadata := options.metadata.getD []
      email
      emailVerified
      defaultRole := jsOr options.defaultRole cfg.defaultRole
      roles := allowedRoles
      locale
      displayName
      avatarUrl }

/-! ## Account resolution: `findOrCreateUser` and `createUser` -/

/-- Modelled from the spec: `insertUser` (imported from `@/utils`, not in
`src/`) — persist a new User built from the insert object together with the
nested `userProviders.data` link rows, and return the created user. -/
def insertUser (input : UserInsertInput)
    (providerSeeds : List (String × String × Tokens)) (db : DB) :
    Except String (UserRecord × DB) := do
  db.call
  let user : UserRecord :=
    { id := db.freshId "user"
      email := input.email
      displayName := input.displayName
      avatarUrl := input.avatarUrl
      locale := input.locale
      defaultRole := input.defaultRole
      roles := input.roles
      metadata := input.metadata }
  let links := providerSeeds.map fun seed =>
    { id := db.freshId ("link" ++ seed.1)
      userId := user.id
      providerId := seed.1
      providerUserId := seed.2.1
      accessToken := seed.2.2.accessToken
      refreshToken := seed.2.2.refreshToken : AuthUserProvider }
  Except.ok (user,
    { db with users := db.users ++ [user],
              userProviders := db.userProviders ++ links,
              nextId := db.nextId + 1 })

/-- The final branch of `findOrCreateUser`: no existing link and no email
match, so transform the profile and insert a new user together with its
first `userProviders` row. -/
def createNewOauthUser (cfg : Config) (provider providerUserId : String)
    (profile : NormalisedProfile) (tokens : Tokens)
    (options : RegistrationOptions) (db : DB) :
    Except String (Option UserRecord × DB) := do
  let userInput ← transformOauthProfile cfg profile options
  let (user, db) ← insertUser userInput [(provider, providerUserId, tokens)] db
  Except.ok (some user, db)

/-- `findOrCreateUser` from `src/routes/oauth/utils.ts`. Precedence:
(1) an existing link for `(provider, profile.id)` gets its tokens updated and
its user returned; (2) otherwise a truthy `profile.email` matching an
existing user gets a new link inserted and that user returned; (3) otherwise
a new user is created with its first link. A falsy `profile.id` throws. -/
def findOrCreateUser (cfg : Config) (provider : String)
    (profile : NormalisedProfile) (tokens : Tokens)
    (options : RegistrationOptions) (db : DB) :
    Except String (Option UserRecord × DB) :=
  match truthyS profile.id with
  | none => Except.error ("Missing id in profile for provider " ++ provider)
  | some providerUserId => do
    let found ← gqlAuthUserProviders provider providerUserId db
    match found with
    | some (authUserProvider, user) => do
        let db ← gqlUpdateAuthUserprovider authUserProvider.id tokens db
        Except.ok (user, db)
    | none =>
      match truthyS profile.email with
      | some email => do
          let user? ← getUserByEmail email db
          match user? with
          | some user => do
              let (insertAuthUserProvider, db) ←
                gqlInsertUserProviderToUser user.id provider providerUserId
                  tokens db
              match insertAuthUserProvider with
              | none => Except.error "Could not add a provider to user"
              | some _ => Except.ok (some user, db)
          | none =>
              createNewOauthUser cfg provider providerUserId profile tokens
                options db
      | none =>
          createNewOauthUser cfg provider providerUserId profile tokens
            options db

/-- Modelled from the spec: `getNewRefreshToken` (imported from `@/utils`,
not in `src/`) — token issuance, "a separate, final step performed by the
caller after resolution succeeds". Minting is injected through `cfg.mint`. -/
def getNewRefreshToken (cfg : Config) (userId : String) (db : DB) :
    Except String (String × DB) := do
  db.call
  Except.ok (cfg.mint userId, db)

/-- `createUser` from `src/routes/oauth/utils.ts`: resolve the account, fail
when no user came back, then mint an application refresh token. -/
def createUser (cfg : Config) (provider : String) (tokens : Tokens)
    (profile : NormalisedProfile) (options : Option RegistrationOptions)
    (db : DB) : Except String (String × DB) := do
  let (user?, db) ← findOrCreateUser cfg provider profile tokens
    (options.getD {}) db
  match user? with
  | none => Except.error "Could not retrieve user"
  | some user => do
      let (refreshToken, db) ← getNewRefreshToken cfg user.id db
      Except.ok (refreshToken, db)

/-! ## Grant configuration and provider validation -/

/-- The raw Grant response stored in the session: tokens, the raw profile
object (only its presence matters before normalisation) and the provider's
error field. -/
structure GrantResponse where
  access_token : Option String := none
  refresh_token : Option String := none
  profile : Option Metadata := none
  error : Option String := none
deriving Repr, DecidableEq

/-- The `grant` object Grant leaves in the session at callback time. -/
structure GrantSession where
  provider : Option String := none
  response : Option GrantResponse := none
deriving Repr, DecidableEq

/-- The per-flow session contents (`FlowState`): the registration options and
redirect target captured at initiation, and Grant's callback payload. -/
structure FlowSession where
  options : Option RegistrationOptions := none
  redirectTo : Option String := none
  grant : Option GrantSession := none
deriving Repr, DecidableEq

/-- The session store keyed by session id (the Session State Carrier). -/
abbrev SessionStore := List (String × FlowSession)

/-- Read the session for a given session id. -/
def lookupSession (store : SessionStore) (sid : String) : Option FlowSession :=
  (store.find? (fun e => e.1 == sid)).map (·.2)

/-- `session.destroy`: remove the session for that id from the store. -/
def eraseSession (store : SessionStore) (sid : String) : SessionStore :=
  store.filter (fun e => !(e.1 == sid))

/-- The query string of the callback request (the fields
`sendErrorFromQuery` reads; a field is `some` exactly when it arrived as a
string). -/
structure Query where
  error : Option String := none
  error_description : Option String := none
deriving Repr, DecidableEq

/-- The structured `details` of an error redirect built by
`sendErrorFromQuery`: `error`, `errorDescription`, and the provider when it
is known. -/
structure ErrorDetails where
  error : String
  errorDescription : String
  provider : Option String := none
deriving Repr, DecidableEq

/-- The callback handler's terminal action: a redirect to the client carrying
either structured error details or the minted refresh token. -/
inductive CallbackOutcome where
  | errorRedirect (redirectTo : String) (details : ErrorDetails)
  | successRedirect (redirectTo : String) (refreshToken : String)
deriving Repr, DecidableEq

/-- The error details of an outcome, when it is an error redirect. -/
def CallbackOutcome.errDetails : CallbackOutcome → Option ErrorDetails
  | .errorRedirect _ d => some d
  | .successRedirect _ _ => none

/-- The `errorDescription` computation of `sendErrorFromQuery`: the query's
`error_description` when it is a string; else the query's `error` when it is
a string different from the reported error code; else the fallback message
or `Unknown error`. -/
def queryErrorDescription (query : Query) (error : String)
    (fallbackMessage : Option String) : String :=
  match query.error_description with
  | some d => d
  | none =>
    match query.error with
    | some e => if e ≠ error then e else jsOr fallbackMessage "Unknown error"
    | none => jsOr fallbackMessage "Unknown error"

/-- `sendErrorFromQuery` from the callback handler of
`src/routes/oauth/index.ts`: report `code` when given, else the query's
`error`, else `invalid-request`; derive the description; attach the provider
when known; redirect to the client. -/
def sendErrorFromQuery (query : Query) (provider : Option String)
    (redirectTo : String) (code : Option String)
    (fallbackMessage : Option String) : CallbackOutcome :=
  let error :=
    match truthyS code with
    | some c => c
    | none => match query.error with
              | some e => e
              | none => "invalid-request"
  let errorDescription := queryErrorDescription query error fallbackMessage
  .errorRedirect redirectTo
    { error, errorDescription, provider := truthyS provider }

/-- The OAuth callback handler of `src/routes/oauth/index.ts`. It reads the
flow state out of the session, destroys the session and clears its cookie,
and only then classifies the outcome: missing provider/response/profile and
missing tokens become error redirects via `sendErrorFromQuery`; otherwise
the profile is normalised (via the provider's registered normaliser
`normalise`), the account resolved and a refresh token minted, any thrown
error being converted to an error redirect. Returns the session store after
the request, whether the cookie was cleared, the database after the request
and the terminal redirect. -/
def oauthCallback (cfg : Config)
    (normalise : String → GrantResponse → NormalisedProfile)
    (store : SessionStore) (sid : String) (query : Query) (db : DB) :
    SessionStore × Bool × DB × CallbackOutcome :=
  let sess := (lookupSession store sid).getD {}
  let grant := sess.grant
  let options := sess.options
  let redirectTo := sess.redirectTo.getD cfg.authClientUrl
  let store := eraseSession store sid
  let cookieCleared := true
  let response := grant.bind (·.response)
  let provider := grant.bind (·.provider)
  match truthyS provider with
  | none =>
      (store, cookieCleared, db,
        sendErrorFromQuery query provider redirectTo (some "internal-error") none)
  | some providerName =>
    match response with
    | none =>
        (store, cookieCleared, db,
          sendErrorFromQuery query provider redirectTo (some "internal-error") none)
    | some response =>
      if response.profile.isNone then
        (store, cookieCleared, db,
          sendErrorFromQuery query provider redirectTo (some "internal-error")
            response.error)
      else
        let profile := normalise providerName response
        let accessToken := response.access_token
        let refreshToken := response.refresh_token
        if !truthy accessToken || !truthy refreshToken then
          (store, cookieCleared, db,
            sendErrorFromQuery query provider redirectTo none
              (some "Grant did not get an accessToken and refreshToken"))
        else
          match createUser cfg providerName
              { accessToken := accessToken, refreshToken := refreshToken }
              profile options db with
          | Except.ok (newRefreshToken, db) =>
              (store, cookieCleared, db,
                .successRedirect redirectTo newRefreshToken)
          | Except.error msg =>
              (store, cookieCleared, db,
                sendErrorFromQuery query provider redirectTo none (some msg))

/-! ## Native Google token exchange -/

/-- A primitive JSON value. The handler only ever reads primitive fields of
the identity endpoint's answer, so objects are modelled one level deep. -/
inductive JsLeaf where
  | jnull
  | jstr (s : String)
  | jbool (b : Bool)
  | jnum (n : Int)
deriving Repr, DecidableEq

/-- An untyped JSON value as returned by the provider's identity endpoint
(`unknown` in the handler): a primitive, or an object of primitives. -/
inductive JsValue where
  | leaf (v : JsLeaf)
  | jobj (fields : List (String × JsLeaf))
deriving Repr, DecidableEq

/-- JS `'key' in data` on a parsed JSON value. -/
def hasKey (v : JsValue) (key : String) : Bool :=
  match v with
  | .jobj fields => (fields.lookup key).isSome
  | _ => false

/-- JS string coercion (`'...' + data`): objects print as
`[object Object]`. -/
def jsToString : JsValue → String
  | .leaf .jnull => "null"
  | .leaf (.jstr s) => s
  | .leaf (.jbool b) => if b then "true" else "false"
  | .leaf (.jnum n) => toString n
  | .jobj _ => "[object Object]"

/-- `isErrorResponse` from `src/routes/oauth/typequards.ts`: a non-null
object carrying both an `error` and an `error_description` key. -/
def isErrorResponse (data : JsValue) : Bool :=
  match data with
  | .jobj _ => hasKey data "error" && hasKey data "error_description"
  | _ => false

/-- `isUserData` from `src/routes/oauth/typequards.ts`: a non-null object
carrying all eight Google userinfo keys. -/
def isUserData (data : JsValue) : Bool :=
  match data with
  | .jobj _ =>
      hasKey data "sub" && hasKey data "name" && hasKey data "given_name" &&
      hasKey data "family_name" && hasKey data "picture" &&
      hasKey data "email" && hasKey data "email_verified" &&
      hasKey data "locale"
  | _ => false

/-- A string field of a JSON object, when it is a string. -/
def getStr (v : JsValue) (key : String) : Option String :=
  match v with
  | .jobj fields =>
    match fields.lookup key with
    | some (.jstr s) => some s
    | _ => none
  | .leaf _ => none

/-- A boolean field of a JSON object, when it is a boolean. -/
def getBool (v : JsValue) (key : String) : Option Bool :=
  match v with
  | .jobj fields =>
    match fields.lookup key with
    | some (.jbool b) => some b
    | _ => none
  | .leaf _ => none

/-- The local `normaliseProfile` of `src/routes/oauth/native.ts`: map the
Google userinfo fields onto a `NormalisedProfile`, trimming the locale to
its two-letter language (`locale?.slice(0, 2)`). -/
def normaliseGoogleProfile (userData : JsValue) : NormalisedProfile :=
  { id := getStr userData "sub"
    displayName := getStr userData "name"
    avatarUrl := getStr userData "picture"
    email := getStr userData "email"
    emailVerified := getBool userData "email_verified"
    locale := (getStr userData "locale").map (·.take 2) }

/-- What `signInWithGoogleAccessToken` sends back: the provider's error
payload unchanged, an unknown-format message, the minted refresh token, or a
caught error message. -/
inductive NativeResponse where
  | payload (v : JsValue)
  | unknownFormat (msg : String)
  | refreshToken (token : String)
  | errMessage (msg : String)
deriving Repr, DecidableEq

/-- `signInWithGoogleAccessToken` from `src/routes/oauth/native.ts`. The
provider's userinfo answer for the submitted access token is injected as
`userData` (the awaited `fetch(...).json()`). Error-shaped payloads are
echoed back unchanged; unrecognised shapes get a descriptive message;
recognised user payloads are normalised and resolved through `createUser`
with no refresh token, any thrown error being sent as its message. -/
def signInWithGoogleAccessToken (cfg : Config) (userData : JsValue)
    (accessToken : String) (db : DB) : NativeResponse × DB :=
  if isErrorResponse userData then
    (.payload userData, db)
  else if !isUserData userData then
    (.unknownFormat ("unknown format for google response: " ++
      jsToString userData), db)
  else
    let profile := normaliseGoogleProfile userData
    match createUser cfg "google" { accessToken := some accessToken }
        profile none db with
    | Except.ok (refreshToken, db) => (.refreshToken refreshToken, db)
    | Except.error msg => (.errMessage msg, db)

/-! ## WebAuthn registration verification -/

/-- The outcome of the external `verifyRegistrationResponse` call from
`@simplewebauthn/server` (an external collaborator): either it throws, or it
returns a `VerifiedRegistrationResponse` with a `verified` flag and optional
`registrationInfo`. -/
structure RegistrationInfo where
  credentialPublicKey : String
  credentialID : String
  counter : Nat
deriving Repr, DecidableEq

/-- Result of the library's verification of one credential response. -/
inductive VerifyResult where
  | throws
  | ok (verified : Bool) (registrationInfo : Option RegistrationInfo)
deriving Repr, DecidableEq

/-- Whether a library outcome is one the handler rejects. -/
def VerifyResult.failed : VerifyResult → Bool
  | .throws => true
  | .ok verified registrationInfo => !verified || registrationInfo.isNone

/-- A user row as seen by the WebAuthn handler: id and the transient
`currentChallenge`. -/
structure WAUser where
  id : String
  currentChallenge : Option String := none
deriving Repr, DecidableEq

/-- A persisted `auth.user_authenticators` row. -/
structure Authenticator where
  userId : String
  credentialId : String
  credentialPublicKey : String
  counter : Nat
  nickname : Option String := none
deriving Repr, DecidableEq

/-- The store slice the WebAuthn registration handler touches. -/
structure WADb where
  users : List WAUser
  authenticators : List Authenticator
deriving Repr, DecidableEq

/-- The user row with a given id. -/
def WADb.findUser (db : WADb) (id : String) : Option WAUser :=
  db.users.find? (fun u => u.id == id)

/-- The stored challenge of the user with a given id (when the user
exists). -/
def WADb.challengeOf (db : WADb) (id : String) : Option (Option String) :=
  (db.findUser id).map (·.currentChallenge)

/-- Hex/base64url encodings of the credential are opaque here: the
authenticator row stores the library-reported credential id and public key
as given. -/
def mkAuthenticator (userId : String) (info : RegistrationInfo)
    (nickname : Option String) : Authenticator :=
  { userId
    credentialId := info.credentialID
    credentialPublicKey := info.credentialPublicKey
    counter := info.counter
    nickname }

/-- `verifyWebAuthnRegistration` from `src/utils/webauthn.ts`. The
`@simplewebauthn` verification of the submitted credential against the
expected challenge, origins and relying party is injected as `verify`
(a function of the expected challenge, the credential being fixed).
Execution is modelled as (state after the attempt, thrown error if any): a
throw aborts the handler, keeping the writes performed so far. -/
def verifyWebAuthnRegistration (verify : String → VerifyResult)
    (userId : String) (nickname : Option String) (db : WADb) :
    WADb × Option String :=
  match db.findUser userId with
  | none => (db, some "user-not-found")
  | some user =>
    match user.currentChallenge with
    | none => (db, some "invalid-request")
    | some currentChallenge =>
      match verify currentChallenge with
      | .throws => (db, some "invalid-webauthn-authenticator")
      | .ok verified registrationInfo =>
        if !verified then (db, some "invalid-webauthn-verification")
        else
          match registrationInfo with
          | none => (db, some "invalid-webauthn-verification")
          | some info =>
            let newAuthenticator := mkAuthenticator userId info nickname
            let db := { db with
              authenticators := db.authenticators ++ [newAuthenticator] }
            let db := { db with
              users := db.users.map fun u =>
                if u.id == userId then { u with currentChallenge := none }
                else u }
            (db, none)

/-! ## Helpers used in theorem statements -/

/-- Decidable equality for `Except` results, so concrete runs can be checked
by `decide`. -/
instance {ε α : Type} [DecidableEq ε] [DecidableEq α] :
    DecidableEq (Except ε α) := fun a b =>
  match a, b with
  | Except.ok x, Except.ok y =>
      if h : x = y then isTrue (by rw [h])
      else isFalse (by intro hc; cases hc; exact h rfl)
  | Except.error x, Except.error y =>
      if h : x = y then isTrue (by rw [h])
      else isFalse (by intro hc; cases hc; exact h rfl)
  | Except.ok _, Except.error _ => isFalse (by intro hc; cases hc)
  | Except.error _, Except.ok _ => isFalse (by intro hc; cases hc)

/-- A link row with its two token columns replaced. -/
def withTokens (tokens : Tokens) (l : AuthUserProvider) : AuthUserProvider :=
  { l with accessToken := tokens.accessToken
           refreshToken := tokens.refreshToken }

/-- A link row built from its parts. -/
def linkRow (id userId providerId providerUserId : String) (tokens : Tokens) :
    AuthUserProvider :=
  { id, userId, providerId, providerUserId
    accessToken := tokens.accessToken
    refreshToken := tokens.refreshToken }

/-- The user row persisted for a given insert object and fresh id. -/
def insertedUserRow (input : UserInsertInput) (id : String) : UserRecord :=
  { id, email := input.email, displayName := input.displayName
    avatarUrl := input.avatarUrl, locale := input.locale
    defaultRole := input.defaultRole, roles := input.roles
    metadata := input.metadata }

/-- The store after updating the tokens of the link row with a given id:
the outcome of the update-existing-link branch. -/
def dbUpdateLinkTokens (db : DB) (linkId : String) (tokens : Tokens) : DB :=
  { db with userProviders := db.userProviders.map fun x =>
      if x.id == linkId then withTokens tokens x else x }

/-- The store after appending one link row: the outcome of the
link-to-existing-user-by-email branch. -/
def dbInsertLink (db : DB) (l : AuthUserProvider) : DB :=
  { db with userProviders := db.userProviders ++ [l]
            nextId := db.nextId + 1 }

/-- The store after appending one user together with its first link row: the
outcome of the create-new-user branch. -/
def dbInsertUserWithLink (db : DB) (u : UserRecord) (l : AuthUserProvider) :
    DB :=
  { db with users := db.users ++ [u]
            userProviders := db.userProviders ++ [l]
            nextId := db.nextId + 1 }

/-- Clear the stored WebAuthn challenge of the user with the given id. -/
def clearChallenge (uid : String) (x : WAUser) : WAUser :=
  if x.id == uid then { x with currentChallenge := none } else x

/-- The WebAuthn store after a successful registration verification: the new
authenticator row is appended and the user's challenge is cleared. -/
def dbAfterSuccess (db : WADb) (uid : String) (info : RegistrationInfo)
    (nick : Option String) : WADb :=
  { users := db.users.map (clearChallenge uid)
    authenticators := db.authenticators ++ [mkAuthenticator uid info nick] }

/-! ## Concrete fixtures -/

/-- A concrete environment for concrete runs. -/
def sampleConfig : Config :=
  { defaultLocale := "en"
    allowedLocales := ["en", "fr"]
    defaultRole := "user"
    defaultAllowedRoles := ["user", "me"]
    authClientUrl := "http://client"
    validEmail := fun e => e == "a@example.com" || e == "new@example.com"
    gravatarUrl := fun e => e
    mint := fun uid => "rt-" ++ uid }

/-- A stored user owning `a@example.com`. -/
def sampleUser : UserRecord :=
  { id := "user-1", email := some "a@example.com" }

/-- An existing link of `sampleUser` to GitHub identity `42`. -/
def sampleLink : AuthUserProvider :=
  { id := "link-1", userId := "user-1", providerId := "github"
    providerUserId := "42", accessToken := some "old-a"
    refreshToken := some "old-r" }

/-- A store in which the GitHub identity is already linked. -/
def sampleDbLinked : DB :=
  { users := [sampleUser], userProviders := [sampleLink], nextId := 7 }

/-- A store with the user but no link. -/
def sampleDbEmailOnly : DB :=
  { users := [sampleUser], userProviders := [], nextId := 7 }

/-- An empty store. -/
def sampleDbEmpty : DB :=
  { users := [], userProviders := [], nextId := 7 }

/-- An empty store whose underlying calls fail. -/
def sampleDbBroken : DB :=
  { users := [], userProviders := [], storeError := some "store down"
    nextId := 7 }

/-- A canonical GitHub profile with external id `42`. -/
def ghProfile : NormalisedProfile :=
  { id := some "42", email := some "a@example.com", displayName := some "Ada" }

/-- Fresh provider tokens. -/
def sampleTokens : Tokens :=
  { accessToken := some "tok-a", refreshToken := some "tok-r" }

/-- A Grant callback response carrying a profile but no tokens. -/
def cbResponse : GrantResponse :=
  { access_token := none, refresh_token := none, profile := some []
    error := none }

/-- The Grant session state for `cbResponse`. -/
def cbGrant : GrantSession :=
  { provider := some "github", response := some cbResponse }

/-- A flow session about to fail token exchange. -/
def cbSession : FlowSession :=
  { options := none, redirectTo := some "http://client/app"
    grant := some cbGrant }

/-- A session store holding `cbSession` under session id `sid1`. -/
def cbStore : SessionStore := [("sid1", cbSession)]

/-- A WebAuthn store with one user holding outstanding challenge `c`. -/
def waDb : WADb :=
  { users := [{ id := "u1", currentChallenge := some "c" }]
    authenticators := [] }

/-- A registration-info payload reported by the WebAuthn library. -/
def waInfo : RegistrationInfo :=
  { credentialPublicKey := "pk", credentialID := "cid", counter := 0 }

/-- The identity-endpoint answer `\x7berror: "invalid_token"\x7d` (no
`error_description`). -/
def errTokenJson : JsValue :=
  JsValue.jobj [("error", JsLeaf.jstr "invalid_token")]

/-- An identity-endpoint error answer carrying both `error` and
`error_description`. -/
def errFullJson : JsValue :=
  JsValue.jobj [("error", JsLeaf.jstr "invalid_token"),
                ("error_description", JsLeaf.jstr "token expired")]

/-! ## Helper lemmas -/

/-- With no store failure and an existing link for the pair, resolution
updates that link's tokens and returns its joined user. -/
theorem findOrCreateUser_link_exists (cfg : Config) (provider : String)
    (profile : NormalisedProfile) (tokens : Tokens)
    (options : RegistrationOptions) (db : DB)
    (extId : String) (l : AuthUserProvider)
    (hid : truthyS profile.id = some extId)
    (hstore : db.storeError = none)
    (hl : linkFor db provider extId = some l) :
    findOrCreateUser cfg provider profile tokens options db =
      Except.ok (userById db l.userId, dbUpdateLinkTokens db l.id tokens) := by
  simp only [findOrCreateUser, hid, gqlAuthUserProviders, DB.call, hstore, hl,
    gqlUpdateAuthUserprovider, dbUpdateLinkTokens, withTokens, bind, Except.bind]

/-- With no store failure, no existing link, a truthy profile email and a
user owning that email, resolution inserts a link to that user and returns
the user. -/
theorem findOrCreateUser_email_link (cfg : Config) (provider : String)
    (profile : NormalisedProfile) (tokens : Tokens)
    (options : RegistrationOptions) (db : DB)
    (extId email : String) (u : UserRecord)
    (hid : truthyS profile.id = some extId)
    (hstore : db.storeError = none)
    (hl : linkFor db provider extId = none)
    (he : truthyS profile.email = some email)
    (hu : userByEmail db email = some u) :
    findOrCreateUser cfg provider profile tokens options db =
      Except.ok (some u,
        dbInsertLink db
          (linkRow (db.freshId "link") u.id provider extId tokens)) := by
  simp only [findOrCreateUser, hid, gqlAuthUserProviders, DB.call, hstore, hl,
    he, getUserByEmail, hu, gqlInsertUserProviderToUser, dbInsertLink, linkRow,
    bind, Except.bind]

/-- With no store failure, no existing link and no email match, resolution
falls through to the create-new-user branch. -/
theorem findOrCreateUser_falls_to_create (cfg : Config) (provider : String)
    (profile : NormalisedProfile) (tokens : Tokens)
    (options : RegistrationOptions) (db : DB) (extId : String)
    (hid : truthyS profile.id = some extId)
    (hstore : db.storeError = none)
    (hl : linkFor db provider extId = none)
    (he : ∀ email, truthyS profile.email = some email →
            userByEmail db email = none) :
    findOrCreateUser cfg provider profile tokens options db =
      createNewOauthUser cfg provider extId profile tokens options db := by
  cases hemail : truthyS profile.email with
  | none =>
      simp only [findOrCreateUser, hid, gqlAuthUserProviders, DB.call, hstore,
        hl, hemail, bind, Except.bind]
  | some email =>
      simp only [findOrCreateUser, hid, gqlAuthUserProviders, DB.call, hstore,
        hl, hemail, getUserByEmail, he email hemail, bind, Except.bind]

/-- When the profile transformation succeeds, the create branch persists
exactly the transformed user and its first link row. -/
theorem createNewOauthUser_shape (cfg : Config) (provider extId : String)
    (profile : NormalisedProfile) (tokens : Tokens)
    (options : RegistrationOptions) (db : DB) (input : UserInsertInput)
    (hstore : db.storeError = none)
    (ht : transformOauthProfile cfg profile options = Except.ok input) :
    createNewOauthUser cfg provider extId profile tokens options db =
      Except.ok (some (insertedUserRow input (db.freshId "user")),
        dbInsertUserWithLink db (insertedUserRow input (db.freshId "user"))
          (linkRow (db.freshId ("link" ++ provider))
            (db.freshId "user") provider extId tokens)) := by
  simp only [createNewOauthUser, ht, insertUser, DB.call, hstore, bind,
    Except.bind, List.map, insertedUserRow, dbInsertUserWithLink, linkRow]

/-- A falsy profile id makes resolution throw before touching the store. -/
theorem findOrCreateUser_missing_id (cfg : Config) (provider : String)
    (profile : NormalisedProfile) (tokens : Tokens)
    (options : RegistrationOptions) (db : DB)
    (hid : truthyS profile.id = none) :
    findOrCreateUser cfg provider profile tokens options db =
      Except.error ("Missing id in profile for provider " ++ provider) := by
  simp only [findOrCreateUser, hid]

/-- An underlying store failure is surfaced as-is by resolution. -/
theorem findOrCreateUser_store_error (cfg : Config) (provider : String)
    (profile : NormalisedProfile) (tokens : Tokens)
    (options : RegistrationOptions) (db : DB) (e extId : String)
    (hid : truthyS profile.id = some extId)
    (hstore : db.storeError = some e) :
    findOrCreateUser cfg provider profile tokens options db =
      Except.error e := by
  simp only [findOrCreateUser, hid, gqlAuthUserProviders, DB.call, hstore,
    bind, Except.bind]

/-- Destroying a session makes its id unresolvable in the resulting store. -/
theorem lookupSession_eraseSession (store : SessionStore) (sid : String) :
    lookupSession (eraseSession store sid) sid = none := by
  induction store with
  | nil => rfl
  | cons e rest ih =>
      simp only [eraseSession, lookupSession, List.filter] at *
      cases h : e.1 == sid with
      | true => simp [h, ih]
      | false => simp [lookupSession, List.find?, h, ih]

/-- Whatever the callback classifies, the session store it leaves behind is
the original store with the request's session erased. -/
theorem oauthCallback_store (cfg : Config)
    (normalise : String → GrantResponse → NormalisedProfile)
    (store : SessionStore) (sid : String) (query : Query) (db : DB) :
    (oauthCallback cfg normalise store sid query db).1 =
      eraseSession store sid := by
  unfold oauthCallback
  dsimp only
  repeat' split
  all_goals rfl

/-- The callback clears the session cookie on every path. -/
theorem oauthCallback_cookie (cfg : Config)
    (normalise : String → GrantResponse → NormalisedProfile)
    (store : SessionStore) (sid : String) (query : Query) (db : DB) :
    (oauthCallback cfg normalise store sid query db).2.1 = true := by
  unfold oauthCallback
  dsimp only
  repeat' split
  all_goals rfl

/-- A second callback with the same session id finds no flow state and ends
in an `internal-error` redirect to the configured client URL. -/
theorem oauthCallback_replay (cfg : Config)
    (normalise : String → GrantResponse → NormalisedProfile)
    (store : SessionStore) (sid : String) (query query2 : Query)
    (db db2 : DB) :
    (oauthCallback cfg normalise
        (oauthCallback cfg normalise store sid query db).1 sid query2
        db2).2.2.2 =
      CallbackOutcome.errorRedirect cfg.authClientUrl
        { error := "internal-error"
          errorDescription := queryErrorDescription query2 "internal-error" none
          provider := none } := by
  rw [oauthCallback_store]
  unfold oauthCallback
  rw [lookupSession_eraseSession]
  simp [sendErrorFromQuery, truthyS]

/-- Clearing a user's challenge commutes with looking the user up. -/
theorem findUser_map_clear (users : List WAUser) (uid : String) (u : WAUser)
    (hu : users.find? (fun x => x.id == uid) = some u) :
    (users.map (clearChallenge uid)).find? (fun x => x.id == uid) =
      some { u with currentChallenge := none } := by
  induction users with
  | nil => cases hu
  | cons x rest ih =>
      simp only [List.find?, List.map] at hu ⊢
      cases hx : x.id == uid with
      | true =>
          rw [hx] at hu
          simp only [Option.some.injEq] at hu
          subst hu
          simp [clearChallenge, hx]
      | false =>
          rw [hx] at hu
          simp only [clearChallenge, hx, if_false, Bool.false_eq_true]
          exact ih hu

/-- A successful profile transformation carries exactly the roles computed
by the `allowedRoles` block. -/
theorem transformOauthProfile_roles (cfg : Config) (n : NormalisedProfile)
    (opts : RegistrationOptions) (out : UserInsertInput)
    (ht : transformOauthProfile cfg n opts = Except.ok out) :
    out.roles = resolveAllowedRoles cfg opts.allowedRoles := by
  unfold transformOauthProfile at ht
  cases he : emailValidateAsync cfg n.email with
  | error e =>
      rw [he] at ht
      simp only [bind, Except.bind] at ht
      exact Except.noConfusion ht
  | ok em =>
      rw [he] at ht
      simp only [bind, Except.bind, Except.ok.injEq] at ht
      subst ht
      rfl

/-! ## Claims -/

/-- C1: for every resolution call with a provider id, a profile with a
present (truthy) externalId and tokens, and no underlying store failure,
exactly one of three outcomes occurs, checked in this order with the first
match winning: an existing `(providerId, externalId)` link gets its tokens
updated and its user returned; else a present email matching an existing
user gets a new link inserted and that user returned; else a new user is
created together with its first link and returned. -/
theorem claim_c1_resolution_trichotomy (cfg : Config) (provider : String)
    (profile : NormalisedProfile) (tokens : Tokens)
    (options : RegistrationOptions) (db : DB) (extId : String)
    (hid : truthyS profile.id = some extId)
    (hstore : db.storeError = none) :
    (∀ l, linkFor db provider extId = some l →
      findOrCreateUser cfg provider profile tokens options db =
        Except.ok (userById db l.userId, dbUpdateLinkTokens db l.id tokens)) ∧
    (∀ email u, linkFor db provider extId = none →
      truthyS profile.email = some email →
      userByEmail db email = some u →
      findOrCreateUser cfg provider profile tokens options db =
        Except.ok (some u,
          dbInsertLink db
            (linkRow (db.freshId "link") u.id provider extId tokens))) ∧
    (∀ input, linkFor db provider extId = none →
      (∀ email, truthyS profile.email = some email →
        userByEmail db email = none) →
      transformOauthProfile cfg profile options = Except.ok input →
      findOrCreateUser cfg provider profile tokens options db =
        Except.ok (some (insertedUserRow input (db.freshId "user")),
          dbInsertUserWithLink db (insertedUserRow input (db.freshId "user"))
            (linkRow (db.freshId ("link" ++ provider))
              (db.freshId "user") provider extId tokens))) :=
  ⟨fun l hl =>
      findOrCreateUser_link_exists cfg provider profile tokens options db
        extId l hid hstore hl,
    fun email u hl he hu =>
      findOrCreateUser_email_link cfg provider profile tokens options db
        extId email u hid hstore hl he hu,
    fun input hl he ht =>
      (findOrCreateUser_falls_to_create cfg provider profile tokens options db
          extId hid hstore hl he).trans
        (createNewOauthUser_shape cfg provider extId profile tokens options db
          input hstore ht)⟩

/-- C1 witness: a concrete run through the first branch. -/
theorem claim_c1_witness :
    truthyS ghProfile.id = some "42" ∧
    sampleDbLinked.storeError = none ∧
    linkFor sampleDbLinked "github" "42" = some sampleLink ∧
    findOrCreateUser sampleConfig "github" ghProfile sampleTokens {}
        sampleDbLinked =
      Except.ok (userById sampleDbLinked sampleLink.userId,
        dbUpdateLinkTokens sampleDbLinked sampleLink.id sampleTokens) :=
  ⟨by decide, rfl, by decide,
    (claim_c1_resolution_trichotomy sampleConfig "github" ghProfile
        sampleTokens {} sampleDbLinked "42" (by decide) rfl).1
      sampleLink (by decide)⟩

/-- C2: on every callback request the session is destroyed and its cookie
cleared, whatever the classification outcome (the resulting store is always
the original with the session erased, so destruction precedes and is
independent of any error classification), and a second callback presenting
the same session id finds no flow state and fails closed with an
`internal-error` redirect. -/
theorem claim_c2_callback_destroys_session (cfg : Config)
    (normalise : String → GrantResponse → NormalisedProfile)
    (store : SessionStore) (sid : String) (query : Query) (db : DB) :
    (oauthCallback cfg normalise store sid query db).1 =
      eraseSession store sid ∧
    lookupSession (oauthCallback cfg normalise store sid query db).1 sid =
      none ∧
    (oauthCallback cfg normalise store sid query db).2.1 = true ∧
    (∀ query2 db2,
      (oauthCallback cfg normalise
          (oauthCallback cfg normalise store sid query db).1 sid query2
          db2).2.2.2 =
        CallbackOutcome.errorRedirect cfg.authClientUrl
          { error := "internal-error"
            errorDescription :=
              queryErrorDescription query2 "internal-error" none
            provider := none }) :=
  ⟨oauthCallback_store cfg normalise store sid query db,
    by rw [oauthCallback_store]
       exact lookupSession_eraseSession store sid,
    oauthCallback_cookie cfg normalise store sid query db,
    fun query2 db2 =>
      oauthCallback_replay cfg normalise store sid query query2 db db2⟩

/-- C5: when the externalId has no existing link but the profile's email
matches an existing user, resolution inserts a link to that user and
returns it — for every value of `emailVerified` (the flag is never
consulted), and without creating a user (the user table is untouched). -/
theorem claim_c5_email_link_ignores_email_verified (cfg : Config)
    (provider : String) (profile : NormalisedProfile) (tokens : Tokens)
    (options : RegistrationOptions) (db : DB)
    (extId email : String) (u : UserRecord)
    (hid : truthyS profile.id = some extId)
    (hstore : db.storeError = none)
    (hl : linkFor db provider extId = none)
    (he : truthyS profile.email = some email)
    (hu : userByEmail db email = some u) :
    (∀ b : Option Bool,
      findOrCreateUser cfg provider { profile with emailVerified := b }
          tokens options db =
        Except.ok (some u,
          dbInsertLink db
            (linkRow (db.freshId "link") u.id provider extId tokens))) ∧
    (dbInsertLink db
        (linkRow (db.freshId "link") u.id provider extId tokens)).users =
      db.users :=
  ⟨fun b =>
      findOrCreateUser_email_link cfg provider
        { profile with emailVerified := b } tokens options db
        extId email u hid hstore hl he hu,
    rfl⟩

/-- C5 witness: a concrete unseen GitHub identity, linked to the stored
user by email, identically for `emailVerified` absent, false and true. -/
theorem claim_c5_witness :
    linkFor sampleDbEmailOnly "github" "42" = none ∧
    userByEmail sampleDbEmailOnly "a@example.com" = some sampleUser ∧
    findOrCreateUser sampleConfig "github"
        { ghProfile with emailVerified := some false } sampleTokens {}
        sampleDbEmailOnly =
      Except.ok (some sampleUser,
        dbInsertLink sampleDbEmailOnly
          (linkRow (sampleDbEmailOnly.freshId "link") sampleUser.id "github"
            "42" sampleTokens)) :=
  ⟨by decide, by decide,
    (claim_c5_email_link_ignores_email_verified sampleConfig "github"
        ghProfile sampleTokens {} sampleDbEmailOnly "42" "a@example.com"
        sampleUser (by decide) rfl (by decide) (by decide) (by decide)).1
      (some false)⟩

/-- C7: a profile with a falsy externalId makes resolution throw a hard
error mentioning the provider, before any store access and so with no link
created and no user returned; and an underlying store failure is surfaced
to the caller unchanged, not swallowed. -/
theorem claim_c7_missing_id_and_store_failure (cfg : Config)
    (provider : String) (profile : NormalisedProfile) (tokens : Tokens)
    (options : RegistrationOptions) (db : DB) :
    (truthyS profile.id = none →
      findOrCreateUser cfg provider profile tokens options db =
        Except.error ("Missing id in profile for provider " ++ provider)) ∧
    (∀ extId e, truthyS profile.id = some extId → db.storeError = some e →
      findOrCreateUser cfg provider profile tokens options db =
        Except.error e) :=
  ⟨fun hid =>
      findOrCreateUser_missing_id cfg provider profile tokens options db hid,
    fun extId e hid hstore =>
      findOrCreateUser_store_error cfg provider profile tokens options db
        e extId hid hstore⟩

/-- C7 witness: a concrete profile without id, and a concrete store
failure. -/
theorem claim_c7_witness :
    truthyS (NormalisedProfile.id {}) = none ∧
    sampleDbBroken.storeError = some "store down" ∧
    findOrCreateUser sampleConfig "github" {} sampleTokens {} sampleDbEmpty =
      Except.error ("Missing id in profile for provider " ++ "github") ∧
    findOrCreateUser sampleConfig "github" ghProfile sampleTokens {}
        sampleDbBroken =
      Except.error "store down" :=
  ⟨rfl, rfl,
    (claim_c7_missing_id_and_store_failure sampleConfig "github" {}
        sampleTokens {} sampleDbEmpty).1 rfl,
    (claim_c7_missing_id_and_store_failure sampleConfig "github" ghProfile
        sampleTokens {} sampleDbBroken).2 "42" "store down" (by decide) rfl⟩

/-- C8: when a link already exists for the pair, resolution returns the
linked user and a store in which only that link's `accessToken` and
`refreshToken` changed: the user table, the failure flag and the id seed
are untouched, and every link row is either unchanged or the matched row
with only its tokens replaced. -/
theorem claim_c8_link_update_frame (cfg : Config) (provider : String)
    (profile : NormalisedProfile) (tokens : Tokens)
    (options : RegistrationOptions) (db : DB)
    (extId : String) (l : AuthUserProvider) (u : UserRecord)
    (hid : truthyS profile.id = some extId)
    (hstore : db.storeError = none)
    (hl : linkFor db provider extId = some l)
    (hu : userById db l.userId = some u) :
    ∃ db', findOrCreateUser cfg provider profile tokens options db =
        Except.ok (some u, db') ∧
      db'.users = db.users ∧
      db'.storeError = db.storeError ∧
      db'.nextId = db.nextId ∧
      db'.userProviders = db.userProviders.map fun x =>
        if x.id == l.id then withTokens tokens x else x := by
  refine ⟨dbUpdateLinkTokens db l.id tokens, ?_, rfl, rfl, rfl, rfl⟩
  rw [findOrCreateUser_link_exists cfg provider profile tokens options db
    extId l hid hstore hl, hu]

/-- C8 witness: the concrete linked store; only the link row's tokens
move. -/
theorem claim_c8_witness :
    linkFor sampleDbLinked "github" "42" = some sampleLink ∧
    userById sampleDbLinked sampleLink.userId = some sampleUser ∧
    ∃ db', findOrCreateUser sampleConfig "github" ghProfile sampleTokens {}
        sampleDbLinked = Except.ok (some sampleUser, db') ∧
      db'.users = sampleDbLinked.users ∧
      db'.storeError = sampleDbLinked.storeError ∧
      db'.nextId = sampleDbLinked.nextId ∧
      db'.userProviders = sampleDbLinked.userProviders.map fun x =>
        if x.id == sampleLink.id then withTokens sampleTokens x else x :=
  ⟨by decide, by decide,
    claim_c8_link_update_frame sampleConfig "github" ghProfile sampleTokens
      {} sampleDbLinked "42" sampleLink sampleUser (by decide) rfl
      (by decide) (by decide)⟩

/-- C3 counterexample: the claim says the stored challenge is cleared by
the end of every verification attempt, success or failure. On a concrete
failed attempt (the library reports `verified = false`) the handler throws
`invalid-webauthn-verification` before the clearing update runs, leaving
the stored challenge in place; and even after a successful attempt, a
second submission fails with `invalid-request`, not
`invalid-webauthn-verification`. -/
theorem claim_c3_counterexample :
    (verifyWebAuthnRegistration (fun _ => VerifyResult.ok false none) "u1"
        none waDb).2 = some "invalid-webauthn-verification" ∧
    (verifyWebAuthnRegistration (fun _ => VerifyResult.ok false none) "u1"
        none waDb).1.challengeOf "u1" = some (some "c") ∧
    some (some "c") ≠ (some none : Option (Option String)) ∧
    (verifyWebAuthnRegistration (fun _ => VerifyResult.ok true (some waInfo))
        "u1" none
        (verifyWebAuthnRegistration
          (fun _ => VerifyResult.ok true (some waInfo)) "u1" none waDb).1).2 =
      some "invalid-request" := by
  refine ⟨rfl, rfl, by decide, rfl⟩

/-- C3 (amended): the stored challenge is cleared only when verification
succeeds. A failing attempt (library throw, `verified = false`, or missing
registration info) leaves the store — challenge included — unchanged and
reports an error; a successful attempt persists exactly one new
Authenticator, clears the challenge, and a second submission of the same
response then fails with `invalid-request` (no outstanding challenge). -/
theorem claim_c3_amended_challenge_cleared_on_success_only
    (verify : String → VerifyResult) (uid : String)
    (nick : Option String) (db : WADb) (u : WAUser) (ch : String)
    (hu : db.findUser uid = some u)
    (hch : u.currentChallenge = some ch) :
    (VerifyResult.failed (verify ch) = true →
      (verifyWebAuthnRegistration verify uid nick db).1 = db ∧
      (verifyWebAuthnRegistration verify uid nick db).2 ≠ none) ∧
    (∀ info, verify ch = .ok true (some info) →
      verifyWebAuthnRegistration verify uid nick db =
        (dbAfterSuccess db uid info nick, none) ∧
      (dbAfterSuccess db uid info nick).challengeOf uid = some none ∧
      verifyWebAuthnRegistration verify uid nick
          (dbAfterSuccess db uid info nick) =
        (dbAfterSuccess db uid info nick, some "invalid-request")) := by
  constructor
  · intro hfail
    unfold verifyWebAuthnRegistration
    rw [hu]
    dsimp only
    rw [hch]
    dsimp only
    cases hv : verify ch with
    | throws => exact ⟨rfl, by simp⟩
    | ok verified info =>
        rw [hv] at hfail
        cases verified with
        | false => simp
        | true =>
            cases info with
            | none => simp
            | some i => simp [VerifyResult.failed] at hfail
  · intro info hv
    have hfind : (dbAfterSuccess db uid info nick).findUser uid =
        some { u with currentChallenge := none } := by
      unfold dbAfterSuccess WADb.findUser
      exact findUser_map_clear db.users uid u hu
    refine ⟨?_, ?_, ?_⟩
    · unfold verifyWebAuthnRegistration
      rw [hu]
      dsimp only
      rw [hch]
      dsimp only
      rw [hv]
      dsimp only
      simp only [Bool.not_true, Bool.false_eq_true, if_false, dbAfterSuccess]
      rfl
    · unfold WADb.challengeOf
      rw [hfind]
      rfl
    · unfold verifyWebAuthnRegistration
      rw [hfind]

/-- C3 witness: the concrete store with challenge `c`, run through a
successful verification and its replay. -/
theorem claim_c3_witness :
    waDb.findUser "u1" = some { id := "u1", currentChallenge := some "c" } ∧
    verifyWebAuthnRegistration (fun _ => VerifyResult.ok true (some waInfo))
        "u1" none waDb =
      (dbAfterSuccess waDb "u1" waInfo none, none) ∧
    (dbAfterSuccess waDb "u1" waInfo none).challengeOf "u1" = some none ∧
    verifyWebAuthnRegistration (fun _ => VerifyResult.ok true (some waInfo))
        "u1" none (dbAfterSuccess waDb "u1" waInfo none) =
      (dbAfterSuccess waDb "u1" waInfo none, some "invalid-request") :=
  ⟨by decide,
    (claim_c3_amended_challenge_cleared_on_success_only
        (fun _ => VerifyResult.ok true (some waInfo)) "u1" none waDb
        { id := "u1", currentChallenge := some "c" } "c" (by decide) rfl).2
      waInfo rfl⟩

/-- C4 counterexample: on a token-exchange failure with no `error` in the
original query, the claim says the redirect reports a generic
`internal-error`; the concrete run reports `invalid-request` instead (with
the fallback description and the provider name). -/
theorem claim_c4_counterexample :
    (oauthCallback sampleConfig (fun _ _ => {}) cbStore "sid1" {}
        sampleDbEmpty).2.2.2 =
      CallbackOutcome.errorRedirect "http://client/app"
        { error := "invalid-request"
          errorDescription := "Grant did not get an accessToken and refreshToken"
          provider := some "github" } ∧
    ("invalid-request" : String) ≠ "internal-error" := by
  refine ⟨by decide, by decide⟩

/-- C4 (amended): when the provider response carries a profile but lacks an
access token or a refresh token, the error redirect reports the original
query's `error` when present and `invalid-request` (not `internal-error`)
otherwise; the description prefers the query's `error_description`, and the
provider name is included since it is known on this path. -/
theorem claim_c4_amended_token_failure_reports_query_error (cfg : Config)
    (normalise : String → GrantResponse → NormalisedProfile)
    (store : SessionStore) (sid : String) (query : Query) (db : DB)
    (sess : FlowSession) (g : GrantSession) (p : String)
    (resp : GrantResponse)
    (hs : lookupSession store sid = some sess)
    (hg : sess.grant = some g)
    (hp : truthyS g.provider = some p)
    (hr : g.response = some resp)
    (hprof : resp.profile.isNone = false)
    (htok : (!truthy resp.access_token || !truthy resp.refresh_token)
      = true) :
    (oauthCallback cfg normalise store sid query db).2.2.2 =
      CallbackOutcome.errorRedirect (sess.redirectTo.getD cfg.authClientUrl)
        { error := query.error.getD "invalid-request"
          errorDescription := queryErrorDescription query
            (query.error.getD "invalid-request")
            (some "Grant did not get an accessToken and refreshToken")
          provider := some p } := by
  unfold oauthCallback
  rw [hs]
  dsimp only [Option.getD]
  rw [hg]
  dsimp only [Option.bind]
  rw [hp, hr]
  simp only [hprof, htok, Bool.false_eq_true, if_false, if_true]
  simp only [sendErrorFromQuery]
  rw [hp]
  cases query.error <;> rfl

/-- C4 witness: the concrete fixture, with the provider's own error pair in
the query being passed through. -/
theorem claim_c4_witness :
    lookupSession cbStore "sid1" = some cbSession ∧
    truthyS cbGrant.provider = some "github" ∧
    (oauthCallback sampleConfig (fun _ _ => {}) cbStore "sid1"
        { error := some "access_denied", error_description := some "nope" }
        sampleDbEmpty).2.2.2 =
      CallbackOutcome.errorRedirect
        (cbSession.redirectTo.getD sampleConfig.authClientUrl)
        { error := (some "access_denied").getD "invalid-request"
          errorDescription := queryErrorDescription
            { error := some "access_denied", error_description := some "nope" }
            ((some "access_denied").getD "invalid-request")
            (some "Grant did not get an accessToken and refreshToken")
          provider := some "github" } :=
  ⟨by decide, by decide,
    claim_c4_amended_token_failure_reports_query_error sampleConfig
      (fun _ _ => {}) cbStore "sid1"
      { error := some "access_denied", error_description := some "nope" }
      sampleDbEmpty cbSession cbGrant "github" cbResponse
      (by decide) rfl (by decide) rfl rfl (by decide)⟩

/-- C9 counterexample: the identity endpoint answers exactly
`\x7berror: "invalid_token"\x7d`. The claim says the handler returns that
payload unchanged; the concrete run instead answers with the unknown-format
message (the payload lacks `error_description`, so the error guard does not
recognise it), though still without touching the store. -/
theorem claim_c9_counterexample :
    signInWithGoogleAccessToken sampleConfig errTokenJson "abc"
        sampleDbEmpty =
      (NativeResponse.unknownFormat
        "unknown format for google response: [object Object]",
        sampleDbEmpty) ∧
    NativeResponse.unknownFormat
        "unknown format for google response: [object Object]" ≠
      NativeResponse.payload errTokenJson := by
  refine ⟨by decide, by decide⟩

/-- C9 (amended): a payload carrying both `error` and `error_description`
is returned to the caller unchanged with the store untouched (no account
resolution); a payload that is neither error-shaped nor a recognised user
payload — such as a bare `\x7berror: "invalid_token"\x7d` — is answered
with a descriptive unknown-format message, also with the store untouched. -/
theorem claim_c9_amended_error_payload_guards (cfg : Config)
    (userData : JsValue) (accessToken : String) (db : DB) :
    (isErrorResponse userData = true →
      signInWithGoogleAccessToken cfg userData accessToken db =
        (.payload userData, db)) ∧
    (isErrorResponse userData = false → isUserData userData = false →
      signInWithGoogleAccessToken cfg userData accessToken db =
        (.unknownFormat ("unknown format for google response: " ++
          jsToString userData), db)) := by
  constructor
  · intro h
    simp only [signInWithGoogleAccessToken, h, if_true]
  · intro h1 h2
    simp only [signInWithGoogleAccessToken, h1, h2, Bool.false_eq_true,
      if_false, Bool.not_false, if_true]

/-- C9 witness: a full error payload is echoed unchanged; the bare error
payload gets the unknown-format answer; neither touches the store. -/
theorem claim_c9_witness :
    isErrorResponse errFullJson = true ∧
    isErrorResponse errTokenJson = false ∧
    signInWithGoogleAccessToken sampleConfig errFullJson "abc" sampleDbEmpty =
      (NativeResponse.payload errFullJson, sampleDbEmpty) ∧
    signInWithGoogleAccessToken sampleConfig errTokenJson "abc"
        sampleDbEmpty =
      (NativeResponse.unknownFormat
        ("unknown format for google response: " ++ jsToString errTokenJson),
        sampleDbEmpty) :=
  ⟨by decide, by decide,
    (claim_c9_amended_error_payload_guards sampleConfig errFullJson "abc"
        sampleDbEmpty).1 (by decide),
    (claim_c9_amended_error_payload_guards sampleConfig errTokenJson "abc"
        sampleDbEmpty).2 (by decide) (by decide)⟩

/-- C10 counterexample: the claim says a string-valued `allowedRoles` is
split on commas (so the empty string would yield the one-element role list
of the empty role, as the corresponding array does). The concrete run shows
the empty string instead falls back to the configured default roles,
diverging from the corresponding array. -/
theorem claim_c10_counterexample :
    (transformOauthProfile sampleConfig ghProfile
        { allowedRoles := some (.str "") }).map (fun out => out.roles) =
      Except.ok ["user", "me"] ∧
    (transformOauthProfile sampleConfig ghProfile
        { allowedRoles := some (.arr [""]) }).map (fun out => out.roles) =
      Except.ok [""] ∧
    (["user", "me"] : List String) ≠ [""] := by
  refine ⟨by decide, by decide, by decide⟩

/-- C10 (amended): in a successful profile transformation, an array-valued
`allowedRoles` option is used verbatim, a non-empty string is split on
commas, and an absent option falls back to the configured default allowed
roles — but an empty string, being falsy, also falls back to the defaults
instead of being split. -/
theorem claim_c10_amended_allowed_roles (cfg : Config)
    (n : NormalisedProfile) (opts : RegistrationOptions)
    (out : UserInsertInput)
    (ht : transformOauthProfile cfg n opts = Except.ok out) :
    (opts.allowedRoles = none → out.roles = cfg.defaultAllowedRoles) ∧
    (∀ a, opts.allowedRoles = some (.arr a) → out.roles = a) ∧
    (∀ s, opts.allowedRoles = some (.str s) → s ≠ "" →
      out.roles = s.splitOn ",") ∧
    (opts.allowedRoles = some (.str "") →
      out.roles = cfg.defaultAllowedRoles) := by
  have hr := transformOauthProfile_roles cfg n opts out ht
  refine ⟨?_, ?_, ?_, ?_⟩
  · intro h
    rw [hr, h, resolveAllowedRoles]
  · intro a h
    rw [hr, h, resolveAllowedRoles]
  · intro s h hne
    rw [hr, h, resolveAllowedRoles]
    simp [hne]
  · intro h
    rw [hr, h, resolveAllowedRoles]
    rfl

/-- C10 witness: a concrete transformation with an array-valued option uses
it verbatim. -/
theorem claim_c10_witness :
    transformOauthProfile sampleConfig ghProfile
        { allowedRoles := some (.arr ["editor"]) } =
      Except.ok
        { passwordHash := none, metadata := [], email := some "a@example.com"
          emailVerified := false, defaultRole := "user", roles := ["editor"]
          locale := "en", displayName := some "Ada"
          avatarUrl := "a@example.com" } ∧
    (Except.ok
        { passwordHash := none, metadata := [], email := some "a@example.com"
          emailVerified := false, defaultRole := "user", roles := ["editor"]
          locale := "en", displayName := some "Ada"
          avatarUrl := "a@example.com" } :
      Except String UserInsertInput).map (fun out => out.roles) =
      Except.ok ["editor"] :=
  ⟨by decide,
    by rw [Except.map,
      (claim_c10_amended_allowed_roles sampleConfig ghProfile
          { allowedRoles := some (.arr ["editor"]) } _ (by decide)).2.1
        ["editor"] rfl]⟩
